import Mathlib

/-!
Shallow embedding of the SiteScanner website auditor (src/index.js, the richer
per-device variant, and src/unnamed/part_000, the simpler single-profile
variant).  Network and process effects are made explicit: every external call
site (socket connect, DNS resolution, browser launch, rendering engine call,
summarization call) is modelled by an input parameter describing the outcome
that the JavaScript runtime would deliver to the corresponding callback or
awaited promise.  The functions below then mirror the control flow of the
source line by line.
-/

/-! ## Port probe (src/index.js lines 101-122, src/unnamed/part_000 lines 76-97) -/

/-- Outcome that the runtime delivers for one TCP connection attempt:
the socket fires `connect`, `timeout` or `error` (exactly one of the three
resolves the per-port promise in the source). -/
inductive ConnectOutcome
  | connect
  | timeout
  | socketError
deriving DecidableEq, Repr

/-- The fixed port list of `checkOpenPorts` (`commonPorts`, line 102). -/
def commonPorts : List Nat := [80, 443, 21, 22, 25, 3306, 3389]

/-- The string each per-port promise resolves with (lines 107-117):
`connect` gives the open message, `timeout` and `error` both give the
closed-or-filtered message. -/
def portStatus (o : ConnectOutcome) (port : Nat) : String :=
  match o with
  | ConnectOutcome.connect => "Port " ++ toString port ++ " is open"
  | ConnectOutcome.timeout => "Port " ++ toString port ++ " is closed or filtered"
  | ConnectOutcome.socketError => "Port " ++ toString port ++ " is closed or filtered"

/-- Model of `checkOpenPorts` (lines 101-122): `Promise.all` over
`commonPorts.map`, so the result list is indexed by the declared port list,
not by completion order; `outcomes` assigns to each port the event its socket
fired.  Every per-port promise resolves (never rejects), so the function is
total. -/
def checkOpenPorts (outcomes : Nat → ConnectOutcome) : List String :=
  commonPorts.map (fun port => portStatus (outcomes port) port)

/-! ## DNS probe (src/index.js lines 124-134, src/unnamed/part_000 lines 99-109) -/

/-- Outcome that `dns.resolveTxt` delivers to its callback: an error, a
list of TXT records (each itself a list of strings), or - the defensive case
distinguished by the index.js variant - a defined non-list value. -/
inductive ResolverOutcome
  | failure
  | success (records : List (List String))
  | successNonList
deriving DecidableEq, Repr

/-- Model of `checkDNSRecords` in src/index.js (lines 124-134): on an error
or a non-array `records` value it resolves `[]`, otherwise the records.  The
callback always calls `resolve`, never `reject`, so the promise never
rejects. -/
def checkDNSRecords (o : ResolverOutcome) : List (List String) :=
  match o with
  | ResolverOutcome.failure => []
  | ResolverOutcome.successNonList => []
  | ResolverOutcome.success records => records

/-- Value produced by the part_000 variant of the DNS probe: either the record
list, or the literal fallback string it resolves on error, or the raw
non-list value passed through unchanged. -/
inductive DnsResultP0
  | records (rs : List (List String))
  | message (s : String)
  | nonListValue
deriving DecidableEq, Repr

/-- Model of `checkDNSRecords` in src/unnamed/part_000 (lines 99-109): on an
error it resolves the literal string fallback instead of an empty list; with
no `Array.isArray` guard, a non-list success value is passed through. -/
def checkDNSRecordsP0 (o : ResolverOutcome) : DnsResultP0 :=
  match o with
  | ResolverOutcome.failure => DnsResultP0.message "No TXT records found or error in lookup"
  | ResolverOutcome.successNonList => DnsResultP0.nonListValue
  | ResolverOutcome.success records => DnsResultP0.records records

/-! ## Browser lifecycle of runLighthouse (src/index.js lines 30-76) -/

/-- Events on the browser-automation process inside `runLighthouse`:
`launched` when `launch` returns a chrome instance, `killed` when
`chrome.kill()` runs. -/
inductive ChromeEvent
  | launched
  | killed
deriving DecidableEq, Repr

/-- Raw per-device data extracted from a successful rendering-engine call
(lines 48-67): the four category scores, the two metric blocks (display
strings) and the audit map. -/
structure Audit where
  title : String
  description : String
  score : Option ℚ
deriving DecidableEq, Repr

structure Metrics where
  firstContentfulPaint : String
  largestContentfulPaint : String
  timeToInteractive : String
  cumulativeLayoutShift : String
deriving DecidableEq, Repr

structure CoreWebVitals where
  lcp : String
  fid : String
  cls : String
deriving DecidableEq, Repr

structure DeviceQuality where
  seoScore : ℚ
  accessibilityScore : ℚ
  performanceScore : ℚ
  bestPracticesScore : ℚ
  metrics : Metrics
  coreWebVitals : CoreWebVitals
  audits : List Audit
deriving DecidableEq, Repr

/-- The per-device results object built by the loop in src/index.js
(`results.mobile`, `results.desktop`). -/
structure Lighthouse2 where
  mobile : DeviceQuality
  desktop : DeviceQuality
deriving DecidableEq, Repr

/-- Model of `runLighthouse` in src/index.js (lines 30-76).  `launchOk` is
whether `launch` succeeds; `engineCall k` is the outcome of the k-th
`lighthouse(url, options)` call (`Object.entries` order: 0 = mobile,
1 = desktop).  A throw from either engine call propagates out of the `for`
loop to the `catch` at line 72, which returns `null` - without ever reaching
the `chrome.kill()` at line 70.  The second component records the chrome
lifecycle events in order. -/
def runLighthouse (launchOk : Bool) (engineCall : Nat → Except Unit DeviceQuality) :
    Option Lighthouse2 × List ChromeEvent :=
  if launchOk then
    match engineCall 0 with
    | Except.error _ => (none, [ChromeEvent.launched])
    | Except.ok mobileResult =>
      match engineCall 1 with
      | Except.error _ => (none, [ChromeEvent.launched])
      | Except.ok desktopResult =>
        (some { mobile := mobileResult, desktop := desktopResult },
         [ChromeEvent.launched, ChromeEvent.killed])
  else (none, [])

/-! ## Await schedule of checkSecurity and auditWebsite
(src/index.js lines 136-147 and 294-317) -/

/-- The probes scheduled by `checkSecurity` and `auditWebsite`, plus the
individual socket connections issued inside `checkOpenPorts`. -/
inductive ProbeId
  | httpsRedirectProbe
  | portProbe
  | dnsProbe
  | lighthouseProbe
  | pa11yProbe
  | portConnect (port : Nat)
deriving DecidableEq, Repr

inductive TraceEvent
  | started (p : ProbeId)
  | finished (p : ProbeId)
deriving DecidableEq, Repr

/-- Trace of one awaited call, `await f()`: under JavaScript semantics the
statement after the `await` does not run until the awaited promise has
settled, so the call starts and finishes before control moves on. -/
def awaitCall (p : ProbeId) : List TraceEvent :=
  [TraceEvent.started p, TraceEvent.finished p]

/-- Trace of `Promise.all` over a list of operations: all executors are
started (synchronously, in list order) before any of the promises is awaited,
so every start precedes every finish. -/
def promiseAll (ps : List ProbeId) : List TraceEvent :=
  ps.map TraceEvent.started ++ ps.map TraceEvent.finished

/-- Schedule of `checkSecurity` (src/index.js lines 136-147): three separate
`await` statements, one per sub-probe, in source order. -/
def checkSecurityTrace : List TraceEvent :=
  awaitCall ProbeId.httpsRedirectProbe ++ awaitCall ProbeId.portProbe ++
    awaitCall ProbeId.dnsProbe

/-- Schedule of the probing stage of `auditWebsite` (src/index.js lines
299-301): `await runLighthouse`, then `await runPa11y`, then
`await checkSecurity`, whose own schedule is `checkSecurityTrace`. -/
def auditWebsiteTrace : List TraceEvent :=
  awaitCall ProbeId.lighthouseProbe ++ awaitCall ProbeId.pa11yProbe ++
    checkSecurityTrace

/-- Schedule of the socket connections inside `checkOpenPorts` (lines
103-120): a `Promise.all` over the seven per-port connection attempts. -/
def checkOpenPortsTrace : List TraceEvent :=
  promiseAll (commonPorts.map ProbeId.portConnect)

/-- Index of the first occurrence of an event in a trace. -/
def idxOfE (e : TraceEvent) (tr : List TraceEvent) : Nat :=
  tr.indexOf e

/-- Two probes overlap in a trace when each one starts before the other
finishes; concurrent execution of two awaited operations requires exactly
this overlap. -/
def overlapsB (tr : List TraceEvent) (p q : ProbeId) : Bool :=
  decide (idxOfE (TraceEvent.started q) tr < idxOfE (TraceEvent.finished p) tr) &&
  decide (idxOfE (TraceEvent.started p) tr < idxOfE (TraceEvent.finished q) tr)

/-! ## Report data model and synthesis (src/index.js lines 149-271,
src/unnamed/part_000 lines 124-224) -/

structure Issue where
  message : String
  code : String
deriving DecidableEq, Repr

/-- Security results of the index.js variant (`checkSecurity`, lines 136-147):
its DNS probe always returns a list. -/
structure SecurityInfo where
  httpsRedirect : Bool
  openPorts : List String
  dnsRecords : List (List String)
deriving DecidableEq, Repr

/-- The final report object assembled by `auditWebsite` (lines 303-308):
`lighthouse` is `null` - here `none` - when `runLighthouse` failed. -/
structure Report where
  url : String
  lighthouse : Option Lighthouse2
  pa11y : List Issue
  security : SecurityInfo
deriving DecidableEq, Repr

/-- Result object of a successful Pa11y run; `auditWebsite` reads its
`issues` field. -/
structure Pa11yRun where
  issues : List Issue
deriving DecidableEq, Repr

/-- Assembly of the final report in `auditWebsite` (lines 303-308):
`pa11y: pa11yResults ? pa11yResults.issues : []` defaults a failed Pa11y run
to an empty issue list, while a failed Lighthouse run stays `null`. -/
def buildFinalReport (formattedUrl : String) (lighthouseResults : Option Lighthouse2)
    (pa11yResults : Option Pa11yRun) (securityResults : SecurityInfo) : Report :=
  { url := formattedUrl
    lighthouse := lighthouseResults
    pa11y := match pa11yResults with
      | some p => p.issues
      | none => []
    security := securityResults }

/-- Rendering of a score value into the template string.  The scores are
rationals; integral values print as JavaScript prints them (sign and digits),
which covers every value the theorems below evaluate. -/
def numStr (q : ℚ) : String :=
  if q.den = 1 then toString q.num else toString q

/-- The recommendations section (src/index.js line 234, src/unnamed/part_000
line 207): a dash-prefixed line per recommendation when the list is nonempty
(`recommendations.length` truthy), else the literal placeholder. -/
def recSection (recommendations : List String) : String :=
  if recommendations.length ≠ 0 then
    String.intercalate "\n" (recommendations.map (fun r => "- " ++ r))
  else "No major issues found."

def mobilePerfRec : String :=
  "Mobile: Optimize images, reduce JavaScript, and improve time to interactive."

def desktopPerfRec : String :=
  "Desktop: Optimize images, reduce JavaScript, and improve time to interactive."

/-- Recommendation rules of the index.js `formatReport` (lines 177-183): the
only two pushes are the per-device performance rules; no rule reads the
accessibility scores, the issue list, or the security results. -/
def recommendationsIdx (lh : Lighthouse2) : List String :=
  (if lh.mobile.performanceScore < 90 then [mobilePerfRec] else []) ++
  (if lh.desktop.performanceScore < 90 then [desktopPerfRec] else [])

/-- One entry of the simplified audit list (lines 189-195 in both files). -/
structure SimplifiedAudit where
  title : String
  description : String
  score : ℚ
deriving DecidableEq, Repr

/-- JavaScript numeric coercion of an audit score: `null` coerces to `0`
both in the comparison `audit.score < 0.9` and in the product
`audit.score * 100`. -/
def jsToNumber : Option ℚ → ℚ
  | none => 0
  | some q => q

/-- The simplified audit list (lines 189-195 in both files): keep the audits
whose score compares below 0.9 under JavaScript coercion, and display
`score * 100` for them. -/
def simplifiedAudits (audits : List Audit) : List SimplifiedAudit :=
  (audits.filter (fun a => jsToNumber a.score < 9/10)).map
    (fun a => { title := a.title, description := a.description,
                score := jsToNumber a.score * 100 })

def auditLine (a : SimplifiedAudit) : String :=
  "- **" ++ a.title ++ "**: " ++ a.description ++ " (Score: " ++ numStr a.score ++ ")"

def auditSection (as : List SimplifiedAudit) : String :=
  String.intercalate "\n" (as.map auditLine)

def issueLine (i : Issue) : String :=
  "- " ++ i.message ++ " (" ++ i.code ++ ")"

/-- The Pa11y section (line 242 of index.js, line 215 of part_000). -/
def pa11ySection (issues : List Issue) : String :=
  if issues.length ≠ 0 then String.intercalate "\n" (issues.map issueLine)
  else "No accessibility issues found."

/-- The DNS section of the index.js template (line 248): each record joined
with spaces, records joined with newlines, or the placeholder when the list
is empty. -/
def dnsSection (records : List (List String)) : String :=
  if records.length ≠ 0 then
    String.intercalate "\n" (records.map (String.intercalate " "))
  else "No DNS TXT records found"

def openPortsLines (openPorts : List String) : String :=
  String.intercalate "\n" (openPorts.map (fun p => "  - " ++ p))

/-- The report text built by the index.js `formatReport` before the
summarization call (template literal, lines 197-249). -/
def reportContent (lh : Lighthouse2) (pa11y : List Issue) (security : SecurityInfo)
    (url : String) : String :=
  "# Website Audit Report for: " ++ url ++ "\n" ++
  "\n" ++
  "## Summary\n" ++
  "- **Mobile SEO Score**: " ++ numStr lh.mobile.seoScore ++ "\n" ++
  "- **Mobile Accessibility Score**: " ++ numStr lh.mobile.accessibilityScore ++ "\n" ++
  "- **Mobile Performance Score**: " ++ numStr lh.mobile.performanceScore ++ "\n" ++
  "- **Mobile Best Practices Score**: " ++ numStr lh.mobile.bestPracticesScore ++ "\n" ++
  "- **Desktop SEO Score**: " ++ numStr lh.desktop.seoScore ++ "\n" ++
  "- **Desktop Accessibility Score**: " ++ numStr lh.desktop.accessibilityScore ++ "\n" ++
  "- **Desktop Performance Score**: " ++ numStr lh.desktop.performanceScore ++ "\n" ++
  "- **Desktop Best Practices Score**: " ++ numStr lh.desktop.bestPracticesScore ++ "\n" ++
  "\n" ++
  "## Detailed Performance Metrics\n" ++
  "### Mobile:\n" ++
  "- **First Contentful Paint (FCP)**: " ++ lh.mobile.metrics.firstContentfulPaint ++ "\n" ++
  "- **Largest Contentful Paint (LCP)**: " ++ lh.mobile.metrics.largestContentfulPaint ++ "\n" ++
  "- **Time to Interactive (TTI)**: " ++ lh.mobile.metrics.timeToInteractive ++ "\n" ++
  "- **Cumulative Layout Shift (CLS)**: " ++ lh.mobile.metrics.cumulativeLayoutShift ++ "\n" ++
  "\n" ++
  "#### Core Web Vitals (Mobile)\n" ++
  "- **Largest Contentful Paint (LCP)**: " ++ lh.mobile.coreWebVitals.lcp ++ "\n" ++
  "- **First Input Delay (FID)**: " ++ lh.mobile.coreWebVitals.fid ++ "\n" ++
  "- **Cumulative Layout Shift (CLS)**: " ++ lh.mobile.coreWebVitals.cls ++ "\n" ++
  "\n" ++
  "### Desktop:\n" ++
  "- **First Contentful Paint (FCP)**: " ++ lh.desktop.metrics.firstContentfulPaint ++ "\n" ++
  "- **Largest Contentful Paint (LCP)**: " ++ lh.desktop.metrics.largestContentfulPaint ++ "\n" ++
  "- **Time to Interactive (TTI)**: " ++ lh.desktop.metrics.timeToInteractive ++ "\n" ++
  "- **Cumulative Layout Shift (CLS)**: " ++ lh.desktop.metrics.cumulativeLayoutShift ++ "\n" ++
  "\n" ++
  "#### Core Web Vitals (Desktop)\n" ++
  "- **Largest Contentful Paint (LCP)**: " ++ lh.desktop.coreWebVitals.lcp ++ "\n" ++
  "- **First Input Delay (FID)**: " ++ lh.desktop.coreWebVitals.fid ++ "\n" ++
  "- **Cumulative Layout Shift (CLS)**: " ++ lh.desktop.coreWebVitals.cls ++ "\n" ++
  "\n" ++
  "## Recommendations:\n" ++
  recSection (recommendationsIdx lh) ++ "\n" ++
  "\n" ++
  "## Detailed Report\n" ++
  "\n" ++
  "### Lighthouse Audit Details\n" ++
  auditSection (simplifiedAudits lh.mobile.audits) ++ "\n" ++
  "\n" ++
  "### Pa11y Accessibility Issues\n" ++
  pa11ySection pa11y ++ "\n" ++
  "\n" ++
  "### Security Checks\n" ++
  "- **HTTPS Redirect**: " ++ (if security.httpsRedirect then "Passed" else "Failed") ++ "\n" ++
  "- **Open Ports**: \n" ++
  openPortsLines security.openPorts ++ "\n" ++
  "- **DNS TXT Records**: " ++ dnsSection security.dnsRecords ++ "\n"

/-- Model of the index.js `formatReport` (lines 171-271).  The function first
dereferences `report.lighthouse.mobile` (line 174): with a `null` lighthouse
result this throws a TypeError to the caller, modelled as `Except.error`.
Otherwise it builds the report text and then performs the OpenAI
summarization call (lines 253-266); `summaryOutcome` is the outcome the
external service delivers.  On a successful call the summary is appended
under the trailing section (line 266); on a failed call the `catch` at line
267 returns the bare report text. -/
def formatReport (report : Report) (url : String)
    (summaryOutcome : Except Unit String) : Except Unit String :=
  match report.lighthouse with
  | none => Except.error ()
  | some lh =>
    let content := reportContent lh report.pa11y report.security url
    match summaryOutcome with
    | Except.ok summary => Except.ok (content ++ "\n\n## Summary by OpenAI\n" ++ summary)
    | Except.error _ => Except.ok content

/-- Model of the index.js `saveReportToFile` (lines 150-169): `formatReport`
runs inside the `try`; when it throws, the `catch` at line 166 logs and
returns without writing, so no artifact is produced (`none`).  When it
returns, the content is written (`some content`); the filesystem write is
assumed to succeed. -/
def saveReportToFile (report : Report) (url : String)
    (summaryOutcome : Except Unit String) : Option String :=
  match formatReport report url summaryOutcome with
  | Except.ok content => some content
  | Except.error _ => none

/-! ## Simpler variant renderer (src/unnamed/part_000 lines 176-224) -/

/-- Lighthouse result of the part_000 variant (single profile, lines 37-43). -/
structure LighthouseP0 where
  seoScore : ℚ
  accessibilityScore : ℚ
  performanceScore : ℚ
  bestPracticesScore : ℚ
  audits : List Audit
deriving DecidableEq, Repr

/-- Security results of the part_000 variant: its DNS probe may deliver the
record list or the string fallback. -/
structure SecurityInfoP0 where
  httpsRedirect : Bool
  openPorts : List String
  dnsRecords : DnsResultP0
deriving DecidableEq, Repr

structure ReportP0 where
  url : String
  lighthouse : Option LighthouseP0
  pa11y : List Issue
  security : SecurityInfoP0
deriving DecidableEq, Repr

def perfRecP0 : String :=
  "Consider optimizing images and reducing JavaScript to improve performance."

def accessRecP0 : String :=
  "Review accessibility issues and apply fixes from the Pa11y results."

def httpsRecP0 : String :=
  "Ensure that HTTP traffic is redirected to HTTPS."

/-- Recommendation rules of the part_000 `formatReport` (lines 179-187), in
source order: performance below 90, accessibility score below 90, missing
HTTPS redirect.  The Pa11y issue list is never consulted. -/
def recommendationsP0 (lh : LighthouseP0) (sec : SecurityInfoP0) : List String :=
  (if lh.performanceScore < 90 then [perfRecP0] else []) ++
  (if lh.accessibilityScore < 90 then [accessRecP0] else []) ++
  (if sec.httpsRedirect then [] else [httpsRecP0])

/-- The DNS line of the part_000 template (line 221):
`dnsRecords ? dnsRecords.join(NEWLINE) : fallback`.  A record list is always
truthy (even empty) and `join` stringifies each inner record with commas; the
nonempty string fallback is truthy but has no `join` method, so the template
evaluation throws a TypeError; an empty string would be falsy and render the
placeholder; a non-list raw value has no `join` method either and throws. -/
def dnsSectionP0 (dns : DnsResultP0) : Except Unit String :=
  match dns with
  | DnsResultP0.records rs =>
    Except.ok (String.intercalate "\n" (rs.map (String.intercalate ",")))
  | DnsResultP0.message s =>
    if s = "" then Except.ok "No DNS TXT records found" else Except.error ()
  | DnsResultP0.nonListValue => Except.error ()

/-- Model of the part_000 `formatReport` (lines 176-224).  It dereferences
`report.lighthouse.performanceScore` first (line 179), so a `null` lighthouse
result throws; the template may also throw while rendering the DNS line (see
`dnsSectionP0`).  Otherwise the output is a pure function of the report
value: this variant performs no summarization call. -/
def formatReportP0 (report : ReportP0) (url : String) : Except Unit String :=
  match report.lighthouse with
  | none => Except.error ()
  | some lh =>
    match dnsSectionP0 report.security.dnsRecords with
    | Except.error e => Except.error e
    | Except.ok dnsStr =>
      Except.ok (
        "\n# Website Audit Report for: " ++ url ++ "\n" ++
        "\n" ++
        "## Summary\n" ++
        "- **SEO Score**: " ++ numStr lh.seoScore ++ "\n" ++
        "- **Accessibility Score**: " ++ numStr lh.accessibilityScore ++ "\n" ++
        "- **Performance Score**: " ++ numStr lh.performanceScore ++ "\n" ++
        "- **Best Practices Score**: " ++ numStr lh.bestPracticesScore ++ "\n" ++
        "\n" ++
        "## Recommendations:\n" ++
        recSection (recommendationsP0 lh report.security) ++ "\n" ++
        "\n" ++
        "## Detailed Report\n" ++
        "\n" ++
        "### Lighthouse Audit Details\n" ++
        auditSection (simplifiedAudits lh.audits) ++ "\n" ++
        "\n" ++
        "### Pa11y Accessibility Issues\n" ++
        pa11ySection report.pa11y ++ "\n" ++
        "\n" ++
        "### Security Checks\n" ++
        "- **HTTPS Redirect**: " ++ (if report.security.httpsRedirect then "Passed" else "Failed") ++ "\n" ++
        "- **Open Ports**: \n" ++
        openPortsLines report.security.openPorts ++ "\n" ++
        "- **DNS TXT Records**: " ++ dnsStr ++ "\n" ++
        "\n")

/-- Split a character list at newline characters. -/
def splitLines : List Char → List (List Char)
  | [] => [[]]
  | c :: rest =>
    if c = '\n' then [] :: splitLines rest
    else
      match splitLines rest with
      | [] => [[c]]
      | l :: ls => (c :: l) :: ls

/-- A line-level containment check used to state facts about rendered
artifacts. -/
def containsLine (s line : String) : Bool :=
  (splitLines s.data).contains line.data

/-! ## URL normalizer (src/index.js lines 273-292, src/unnamed/part_000
lines 226-245) -/

/-- ASCII lower-casing of one character, as performed by the WHATWG URL
parser on scheme and host and by the case-insensitive regex test. -/
def lowerChar (c : Char) : Char :=
  if c = 'A' then 'a' else if c = 'B' then 'b' else if c = 'C' then 'c'
  else if c = 'D' then 'd' else if c = 'E' then 'e' else if c = 'F' then 'f'
  else if c = 'G' then 'g' else if c = 'H' then 'h' else if c = 'I' then 'i'
  else if c = 'J' then 'j' else if c = 'K' then 'k' else if c = 'L' then 'l'
  else if c = 'M' then 'm' else if c = 'N' then 'n' else if c = 'O' then 'o'
  else if c = 'P' then 'p' else if c = 'Q' then 'q' else if c = 'R' then 'r'
  else if c = 'S' then 's' else if c = 'T' then 't' else if c = 'U' then 'u'
  else if c = 'V' then 'v' else if c = 'W' then 'w' else if c = 'X' then 'x'
  else if c = 'Y' then 'y' else if c = 'Z' then 'z' else c

def lowerList (cs : List Char) : List Char := cs.map lowerChar

/-- Model of JavaScript `String.prototype.trim`: drop whitespace from both
ends. -/
def trimChars (cs : List Char) : List Char :=
  ((cs.dropWhile Char.isWhitespace).reverse.dropWhile Char.isWhitespace).reverse

def jsTrim (s : String) : String := String.mk (trimChars s.data)

/-- Split a character list at the first occurrence of the marker `sep`,
returning the part before it and the part after it. -/
def splitAtMarker (sep : List Char) : List Char → Option (List Char × List Char)
  | [] => if sep.isPrefixOf ([] : List Char) then some ([], []) else none
  | c :: cs =>
    if sep.isPrefixOf (c :: cs) then some ([], (c :: cs).drop sep.length)
    else
      match splitAtMarker sep cs with
      | some pr => some (c :: pr.1, pr.2)
      | none => none

/-- The scheme separator of an absolute URL. -/
def schemeSep : List Char := [':', '/', '/']

/-- Split the part after the scheme separator into host (up to the first
slash) and path (from the first slash on). -/
def splitHostPath : List Char → List Char × List Char
  | [] => ([], [])
  | c :: cs =>
    if c = '/' then ([], c :: cs)
    else
      let pr := splitHostPath cs
      (c :: pr.1, pr.2)

/-- Characters admitted in a scheme by the model: letters (which are in
particular neither whitespace nor one of the separator characters). -/
def schemeCharOk (c : Char) : Bool :=
  c.isAlpha && !c.isWhitespace && !(c = ':') && !(c = '/')

/-- Characters admitted in a host by the model: everything except the
delimiters that introduce userinfo, port, path, query or fragment parts, and
except whitespace. -/
def hostCharOk (c : Char) : Bool :=
  !(c = '/') && !(c = ':') && !(c = '@') && !(c = '?') && !(c = '#') && !c.isWhitespace

/-- Characters admitted in a path by the model: no query or fragment
delimiters and no whitespace (which the WHATWG parser would percent-encode
or strip). -/
def pathCharOk (c : Char) : Bool :=
  !(c = '?') && !(c = '#') && !c.isWhitespace

structure UrlParts where
  scheme : String
  host : String
  pathname : String
deriving DecidableEq, Repr

/-- Serialization of a parsed URL, the `url.href` read at line 287. -/
def UrlParts.href (u : UrlParts) : String :=
  u.scheme ++ "://" ++ u.host ++ u.pathname

/-- Model of the WHATWG URL collaborator (the Node `URL` class used by
`formatUrl`), restricted to absolute references of the shape
`scheme://host` or `scheme://host/path` with a letters-only scheme, no
userinfo, port, query, fragment, whitespace or dot-segments.  On this domain
the parser lower-cases the scheme and the host, keeps the path verbatim, and
serializes an empty path as the root path `/`; anything outside the domain is
out of the model and parses to `none`.  `parseUrlAux` handles the part after
the scheme separator has been located. -/
def parseUrlAux (pr : List Char × List Char) : Option UrlParts :=
  if pr.1.all schemeCharOk && !pr.1.isEmpty &&
      ((splitHostPath pr.2).1).all hostCharOk && !((splitHostPath pr.2).1).isEmpty &&
      ((splitHostPath pr.2).2).all pathCharOk then
    some { scheme := String.mk (lowerList pr.1)
           host := String.mk (lowerList (splitHostPath pr.2).1)
           pathname := String.mk
             (if ((splitHostPath pr.2).2).isEmpty then ['/'] else (splitHostPath pr.2).2) }
  else none

def parseUrl (s : String) : Option UrlParts :=
  (splitAtMarker schemeSep s.data).bind parseUrlAux

/-- The regex test at line 276 of src/index.js: the trimmed input starts with
`http://` or `https://`, compared case-insensitively. -/
def startsWithHttpScheme (s : String) : Bool :=
  "http://".data.isPrefixOf (lowerList s.data) ||
  "https://".data.isPrefixOf (lowerList s.data)

/-- Lines 275-278 of `formatUrl`: trim the input, then prepend `https://`
exactly when no http or https scheme prefix is present. -/
def withScheme (inputUrl : String) : String :=
  if startsWithHttpScheme (jsTrim inputUrl) then jsTrim inputUrl
  else "https://" ++ jsTrim inputUrl

/-- Model of `formatUrl` (src/index.js lines 273-292, identical in
src/unnamed/part_000 lines 226-245): trim, conditionally prepend the https
scheme, parse with the URL collaborator and return its serialization; a parse
failure exits the process, modelled as `none`.  The explicit pathname
adjustment at lines 283-285 turns an empty or root path into the root path,
which the collaborator model already performs. -/
def formatUrl (inputUrl : String) : Option String :=
  Option.map UrlParts.href (parseUrl (withScheme inputUrl))

/-! ## Concrete sample values used by witnesses and counterexamples -/

def sampleMetrics : Metrics :=
  { firstContentfulPaint := "1.0 s", largestContentfulPaint := "2.0 s",
    timeToInteractive := "3.0 s", cumulativeLayoutShift := "0.1" }

def sampleCWV : CoreWebVitals :=
  { lcp := "2.0 s", fid := "16 ms", cls := "0.1" }

/-- A device result with every category score at 95 and no audits. -/
def deviceOk : DeviceQuality :=
  { seoScore := 95, accessibilityScore := 95, performanceScore := 95,
    bestPracticesScore := 95, metrics := sampleMetrics,
    coreWebVitals := sampleCWV, audits := [] }

/-- A device result whose accessibility score is 50, all other scores 95. -/
def deviceLowAccess : DeviceQuality :=
  { deviceOk with accessibilityScore := 50 }

def lhOk : Lighthouse2 := { mobile := deviceOk, desktop := deviceOk }

def lhLowAccess : Lighthouse2 := { mobile := deviceLowAccess, desktop := deviceLowAccess }

def secPass : SecurityInfo :=
  { httpsRedirect := true, openPorts := ["Port 80 is open"], dnsRecords := [] }

def secNoRedirect : SecurityInfo :=
  { secPass with httpsRedirect := false }

def sampleUrl : String := "https://example.com/"

def sampleReport : Report :=
  { url := sampleUrl, lighthouse := some lhOk, pa11y := [], security := secPass }

/-- A report whose accessibility scores are below 90 on both devices and
whose HTTPS redirect check failed. -/
def lowAccessReport : Report :=
  { url := sampleUrl, lighthouse := some lhLowAccess, pa11y := [],
    security := secNoRedirect }

def samplePa11y : Pa11yRun :=
  { issues := [{ message := "Image missing alt text", code := "WCAG2AA.1_1_1" }] }

def lhP0Ok : LighthouseP0 :=
  { seoScore := 95, accessibilityScore := 95, performanceScore := 95,
    bestPracticesScore := 95, audits := [] }

def secP0Pass : SecurityInfoP0 :=
  { httpsRedirect := true, openPorts := ["Port 80 is open"],
    dnsRecords := DnsResultP0.records [] }

def sampleReportP0 : ReportP0 :=
  { url := sampleUrl, lighthouse := some lhP0Ok, pa11y := [], security := secP0Pass }

/-- A part_000 report with a nonempty Pa11y issue list but every category
score at or above 90 and a passing redirect check. -/
def issuesReportP0 : ReportP0 :=
  { url := sampleUrl, lighthouse := some lhP0Ok,
    pa11y := [{ message := "Image missing alt text", code := "WCAG2AA.1_1_1" }],
    security := secP0Pass }

/-- Decidable equality for `Except` results, used to evaluate the renderer
models on concrete inputs. -/
instance {ε α : Type} [DecidableEq ε] [DecidableEq α] : DecidableEq (Except ε α) := fun x y =>
  match x, y with
  | Except.error a, Except.error b =>
    if h : a = b then isTrue (by rw [h])
    else isFalse (by intro hc; injection hc with h2; exact h h2)
  | Except.error _, Except.ok _ => isFalse (by intro hc; exact Except.noConfusion hc)
  | Except.ok _, Except.error _ => isFalse (by intro hc; exact Except.noConfusion hc)
  | Except.ok a, Except.ok b =>
    if h : a = b then isTrue (by rw [h])
    else isFalse (by intro hc; injection hc with h2; exact h h2)


def ucLetters : List Char := "ABCDEFGHIJKLMNOPQRSTUVWXYZ".data

def lcLetters : List Char := "abcdefghijklmnopqrstuvwxyz".data

/-- The facts about the components of a parsed URL that `parseUrl`
guarantees: character classes, nonemptiness, a root-anchored path, and
lower-case-fixedness of scheme and host. -/
def goodParts (u : UrlParts) : Prop :=
  (∀ c ∈ u.scheme.data, schemeCharOk c = true) ∧ u.scheme.data ≠ [] ∧
  (∀ c ∈ u.host.data, hostCharOk c = true) ∧ u.host.data ≠ [] ∧
  (∀ c ∈ u.pathname.data, pathCharOk c = true) ∧ u.pathname.data.head? = some '/' ∧
  lowerList u.scheme.data = u.scheme.data ∧ lowerList u.host.data = u.host.data

set_option maxRecDepth 16384

/-! ## Helper lemmas -/

theorem recStringsDistinct :
    perfRecP0 ≠ accessRecP0 ∧ perfRecP0 ≠ httpsRecP0 ∧ accessRecP0 ≠ httpsRecP0 ∧
    mobilePerfRec ≠ desktopPerfRec := by
  refine ⟨by decide, by decide, by decide, by decide⟩

/-! ## Claim theorems -/

/-- C6: for every assignment of connection outcomes, the port probe result is
exactly one entry per declared port - 80, 443, 21, 22, 25, 3306, 3389 - in
declared order, each entry determined solely by that port's outcome (so the
order in which connections complete cannot affect it); a successful connect
yields the open classification, a timeout or connection error the
closed-or-filtered one.  The probe is a total function: no outcome makes it
raise. -/
theorem checkOpenPorts_spec (outcomes : Nat → ConnectOutcome) :
    checkOpenPorts outcomes =
      [portStatus (outcomes 80) 80, portStatus (outcomes 443) 443,
       portStatus (outcomes 21) 21, portStatus (outcomes 22) 22,
       portStatus (outcomes 25) 25, portStatus (outcomes 3306) 3306,
       portStatus (outcomes 3389) 3389] ∧
    (checkOpenPorts outcomes).length = 7 ∧
    (∀ port, portStatus ConnectOutcome.connect port =
      "Port " ++ toString port ++ " is open") ∧
    (∀ port, portStatus ConnectOutcome.timeout port =
      "Port " ++ toString port ++ " is closed or filtered") ∧
    (∀ port, portStatus ConnectOutcome.socketError port =
      "Port " ++ toString port ++ " is closed or filtered") :=
  ⟨rfl, rfl, fun _ => rfl, fun _ => rfl, fun _ => rfl⟩

/-- C4, counterexample: the part_000 variant of the DNS probe, cited by the
claim, does not return the empty-list fallback on resolver failure - it
returns the literal string fallback, a different value. -/
theorem dns_fallback_counterexample :
    checkDNSRecordsP0 ResolverOutcome.failure =
      DnsResultP0.message "No TXT records found or error in lookup" ∧
    decide (checkDNSRecordsP0 ResolverOutcome.failure = DnsResultP0.records []) = false :=
  ⟨rfl, by decide⟩

/-- C4, amended: the index.js DNS probe returns the empty list on resolver
failure and on a non-list resolver result, and the records unchanged on
success - it is total, hence never raises; the part_000 variant instead
resolves the literal string fallback on failure. -/
theorem checkDNSRecords_amended :
    checkDNSRecords ResolverOutcome.failure = [] ∧
    checkDNSRecords ResolverOutcome.successNonList = [] ∧
    (∀ rs, checkDNSRecords (ResolverOutcome.success rs) = rs) ∧
    checkDNSRecordsP0 ResolverOutcome.failure =
      DnsResultP0.message "No TXT records found or error in lookup" :=
  ⟨rfl, rfl, fun _ => rfl, rfl⟩

/-- C5: evaluation of `runLighthouse` at the failing input.  When `launch`
succeeds and the first rendering-engine call throws, the trace holds one
launch and zero kills - the claim requires exactly one kill per launch on
every exit path.  On the fully successful path the kill does happen once. -/
theorem runLighthouse_kill_skipped_on_engine_throw :
    ((runLighthouse true (fun _ => Except.error ())).2.count ChromeEvent.launched = 1) ∧
    ((runLighthouse true (fun _ => Except.error ())).2.count ChromeEvent.killed = 0) ∧
    ((runLighthouse true (fun _ => Except.ok deviceOk)).2.count ChromeEvent.killed = 1) := by
  refine ⟨rfl, rfl, rfl⟩

/-- C1: evaluation of the persistence path at the failing input.  When the
quality probe failed (`lighthouse` is `null`) the renderer throws on the null
dereference and `saveReportToFile` writes nothing - no artifact is produced,
although the run reached the probing stage; by contrast a failed
accessibility probe (Pa11y `null`, defaulted to an empty issue list) still
yields an artifact. -/
theorem report_withheld_on_lighthouse_failure :
    saveReportToFile (buildFinalReport sampleUrl none (some samplePa11y) secPass)
      sampleUrl (Except.error ()) = none ∧
    (∃ content,
      saveReportToFile (buildFinalReport sampleUrl (some lhOk) none secPass)
        sampleUrl (Except.error ()) = some content) :=
  ⟨rfl, ⟨_, rfl⟩⟩

/-- C2, counterexample: the index.js `formatReport` performs the OpenAI
summarization call, and its artifact text depends on that calls outcome -
two invocations on the same Report value with different service responses
yield different artifact text, so the rendering is neither free of I/O nor
deterministic in its Report argument. -/
theorem formatReport_summary_dependent :
    decide (formatReport sampleReport sampleUrl (Except.ok "A") =
      formatReport sampleReport sampleUrl (Except.ok "B")) = false := by
  apply decide_eq_false
  have e1 : formatReport sampleReport sampleUrl (Except.ok "A") =
      Except.ok (reportContent lhOk sampleReport.pa11y sampleReport.security sampleUrl ++
        "\n\n## Summary by OpenAI\n" ++ "A") := rfl
  have e2 : formatReport sampleReport sampleUrl (Except.ok "B") =
      Except.ok (reportContent lhOk sampleReport.pa11y sampleReport.security sampleUrl ++
        "\n\n## Summary by OpenAI\n" ++ "B") := rfl
  intro h
  rw [e1, e2] at h
  injection h with h2
  have h3 := congrArg String.data h2
  simp only [String.data_append] at h3
  have h4 := List.append_cancel_left h3
  exact absurd h4 (by decide)

/-- C2, amended: for a fixed outcome of the summarization call, both
renderers are pure functions of their inputs - structurally identical Report
values yield byte-identical artifact text; the part_000 variant performs no
call at all inside rendering. -/
theorem formatReport_deterministic (r1 r2 : ReportP0) (q1 q2 : Report)
    (u v : String) (so : Except Unit String) (h1 : r1 = r2) (h2 : q1 = q2) :
    formatReportP0 r1 u = formatReportP0 r2 u ∧
    formatReport q1 v so = formatReport q2 v so := by
  subst h1; subst h2; exact ⟨rfl, rfl⟩

theorem formatReport_deterministic_witness :
    formatReportP0 sampleReportP0 sampleUrl = formatReportP0 sampleReportP0 sampleUrl ∧
    formatReport sampleReport sampleUrl (Except.error ()) =
      formatReport sampleReport sampleUrl (Except.error ()) :=
  formatReport_deterministic sampleReportP0 sampleReportP0 sampleReport sampleReport
    sampleUrl sampleUrl (Except.error ()) rfl rfl

/-- C3, counterexample: in the richer per-device variant a report whose
accessibility scores are 50 on both devices and whose HTTPS redirect check
failed still produces an empty recommendation list, and its rendered
recommendations section is the no-issues placeholder with neither an
accessibility-review nor an HTTPS-enforcement line; in the simpler variant a
report with a nonempty issue list (and all scores at 95) likewise renders the
placeholder and no accessibility-review line.  Both halves of the claimed
accessibility condition, and the claimed HTTPS rule for the richer variant,
are therefore false of the code. -/
theorem recommendations_counterexample :
    lhLowAccess.mobile.accessibilityScore < 90 ∧
    lhLowAccess.desktop.accessibilityScore < 90 ∧
    lowAccessReport.security.httpsRedirect = false ∧
    recommendationsIdx lhLowAccess = [] ∧
    Except.map (fun out => containsLine out "No major issues found.")
      (formatReport lowAccessReport sampleUrl (Except.error ())) = Except.ok true ∧
    Except.map (fun out => containsLine out ("- " ++ accessRecP0))
      (formatReport lowAccessReport sampleUrl (Except.error ())) = Except.ok false ∧
    Except.map (fun out => containsLine out ("- " ++ httpsRecP0))
      (formatReport lowAccessReport sampleUrl (Except.error ())) = Except.ok false ∧
    issuesReportP0.pa11y.length = 1 ∧
    Except.map (fun out => containsLine out "No major issues found.")
      (formatReportP0 issuesReportP0 sampleUrl) = Except.ok true ∧
    Except.map (fun out => containsLine out ("- " ++ accessRecP0))
      (formatReportP0 issuesReportP0 sampleUrl) = Except.ok false := by
  refine ⟨by decide, by decide, rfl, rfl, by decide, by decide, by decide, by decide,
    by decide, by decide⟩

/-- C3, amended: in the simpler variant the synthesizer emits the
performance recommendation exactly when the performance score is below 90,
the accessibility-review recommendation exactly when the accessibility score
is below 90 (not when the issue list is nonempty), and the HTTPS-enforcement
recommendation exactly when the redirect check failed; the list is always a
sublist of the three rule strings in fixed source order, and when no rule
triggers the rendered section is exactly the placeholder literal.  The richer
per-device variant emits only the two per-device performance
recommendations, in fixed mobile-desktop order. -/
theorem recommendations_amended (lh : LighthouseP0) (sec : SecurityInfoP0)
    (lh2 : Lighthouse2) :
    (recommendationsP0 lh sec).Sublist [perfRecP0, accessRecP0, httpsRecP0] ∧
    (perfRecP0 ∈ recommendationsP0 lh sec ↔ lh.performanceScore < 90) ∧
    (accessRecP0 ∈ recommendationsP0 lh sec ↔ lh.accessibilityScore < 90) ∧
    (httpsRecP0 ∈ recommendationsP0 lh sec ↔ sec.httpsRedirect = false) ∧
    (recommendationsP0 lh sec = [] →
      recSection (recommendationsP0 lh sec) = "No major issues found.") ∧
    (recommendationsIdx lh2).Sublist [mobilePerfRec, desktopPerfRec] := by
  obtain ⟨d1, d2, d3, d4⟩ := recStringsDistinct
  refine ⟨?_, ?_, ?_, ?_, ?_, ?_⟩
  · unfold recommendationsP0; split_ifs <;> decide
  · unfold recommendationsP0; split_ifs <;>
      simp_all [d1, d2, d3, Ne.symm d1, Ne.symm d2, Ne.symm d3]
  · unfold recommendationsP0; split_ifs <;>
      simp_all [d1, d2, d3, Ne.symm d1, Ne.symm d2, Ne.symm d3]
  · unfold recommendationsP0; split_ifs <;>
      simp_all [d1, d2, d3, Ne.symm d1, Ne.symm d2, Ne.symm d3]
  · intro h; rw [h]; rfl
  · unfold recommendationsIdx; split_ifs <;> decide

theorem recommendations_amended_witness :
    recSection (recommendationsP0 lhP0Ok secP0Pass) = "No major issues found." :=
  (recommendations_amended lhP0Ok secP0Pass lhOk).2.2.2.2.1 (by decide)

/-- C9, counterexample: in the await schedule of the source, no two of the
three security sub-probes overlap (each is awaited to completion before the
next starts), and the quality probe does not overlap any security sub-probe
either - the executions the claim describes as concurrent are strictly
sequential. -/
theorem security_probes_not_concurrent :
    overlapsB checkSecurityTrace ProbeId.httpsRedirectProbe ProbeId.portProbe = false ∧
    overlapsB checkSecurityTrace ProbeId.portProbe ProbeId.dnsProbe = false ∧
    overlapsB checkSecurityTrace ProbeId.httpsRedirectProbe ProbeId.dnsProbe = false ∧
    overlapsB auditWebsiteTrace ProbeId.lighthouseProbe ProbeId.httpsRedirectProbe = false ∧
    overlapsB auditWebsiteTrace ProbeId.lighthouseProbe ProbeId.portProbe = false ∧
    overlapsB auditWebsiteTrace ProbeId.lighthouseProbe ProbeId.dnsProbe = false := by
  decide

/-- C9, amended: the schedule is sequential at both levels - the HTTPS
redirect probe finishes before the port probe starts, which finishes before
the DNS probe starts; Lighthouse finishes before Pa11y starts, which
finishes before the first security sub-probe starts.  The only concurrency
in the program is inside the port probe, whose seven per-port connection
attempts all start before any completes. -/
theorem await_schedule_sequential :
    idxOfE (TraceEvent.finished ProbeId.httpsRedirectProbe) checkSecurityTrace <
      idxOfE (TraceEvent.started ProbeId.portProbe) checkSecurityTrace ∧
    idxOfE (TraceEvent.finished ProbeId.portProbe) checkSecurityTrace <
      idxOfE (TraceEvent.started ProbeId.dnsProbe) checkSecurityTrace ∧
    idxOfE (TraceEvent.finished ProbeId.lighthouseProbe) auditWebsiteTrace <
      idxOfE (TraceEvent.started ProbeId.pa11yProbe) auditWebsiteTrace ∧
    idxOfE (TraceEvent.finished ProbeId.pa11yProbe) auditWebsiteTrace <
      idxOfE (TraceEvent.started ProbeId.httpsRedirectProbe) auditWebsiteTrace ∧
    overlapsB checkOpenPortsTrace (ProbeId.portConnect 80) (ProbeId.portConnect 3389) = true := by
  decide

/-- C10: an audit entry whose raw score is null passes the below-0.9 filter
under JavaScript coercion (null coerces to 0) and is surfaced in the
simplified audit list with a displayed score of 0, while entries whose score
is at least 0.9 are removed by the filter and hence omitted. -/
theorem null_score_audit_surfaced (audits : List Audit) (a : Audit)
    (h1 : a ∈ audits) (h2 : a.score = none) :
    jsToNumber a.score < 9/10 ∧
    ({ title := a.title, description := a.description, score := 0 } : SimplifiedAudit)
      ∈ simplifiedAudits audits ∧
    ∀ (b : Audit) (s : ℚ), b.score = some s → (9:ℚ)/10 ≤ s →
      b ∉ audits.filter (fun x => jsToNumber x.score < 9/10) := by
  refine ⟨by rw [h2]; norm_num [jsToNumber], ?_, ?_⟩
  · unfold simplifiedAudits
    refine List.mem_map.mpr ⟨a, List.mem_filter.mpr ⟨h1, ?_⟩, ?_⟩
    · show decide (jsToNumber a.score < 9/10) = true
      rw [h2]
      simp only [jsToNumber, decide_eq_true_eq]
      norm_num
    · rw [h2]; simp [jsToNumber]
  · intro b s hb hs hmem
    have hf := (List.mem_filter.mp hmem).2
    rw [hb] at hf
    simp [jsToNumber] at hf
    exact absurd hf (not_lt.mpr hs)

theorem null_score_audit_surfaced_witness :
    SimplifiedAudit.mk "render-blocking" "Informational audit" 0 ∈
      simplifiedAudits [Audit.mk "render-blocking" "Informational audit" none] :=
  (null_score_audit_surfaced
    [Audit.mk "render-blocking" "Informational audit" none]
    (Audit.mk "render-blocking" "Informational audit" none)
    (List.mem_singleton.mpr rfl) rfl).2.1
theorem mem_uc_or_fix (c : Char) : c ∈ ucLetters ∨ lowerChar c = c := by
  by_cases h : c ∈ ucLetters
  · left; exact h
  · right
    have e0 : ¬(c = 'A') := fun e => h (by rw [e]; decide)
    have e1 : ¬(c = 'B') := fun e => h (by rw [e]; decide)
    have e2 : ¬(c = 'C') := fun e => h (by rw [e]; decide)
    have e3 : ¬(c = 'D') := fun e => h (by rw [e]; decide)
    have e4 : ¬(c = 'E') := fun e => h (by rw [e]; decide)
    have e5 : ¬(c = 'F') := fun e => h (by rw [e]; decide)
    have e6 : ¬(c = 'G') := fun e => h (by rw [e]; decide)
    have e7 : ¬(c = 'H') := fun e => h (by rw [e]; decide)
    have e8 : ¬(c = 'I') := fun e => h (by rw [e]; decide)
    have e9 : ¬(c = 'J') := fun e => h (by rw [e]; decide)
    have e10 : ¬(c = 'K') := fun e => h (by rw [e]; decide)
    have e11 : ¬(c = 'L') := fun e => h (by rw [e]; decide)
    have e12 : ¬(c = 'M') := fun e => h (by rw [e]; decide)
    have e13 : ¬(c = 'N') := fun e => h (by rw [e]; decide)
    have e14 : ¬(c = 'O') := fun e => h (by rw [e]; decide)
    have e15 : ¬(c = 'P') := fun e => h (by rw [e]; decide)
    have e16 : ¬(c = 'Q') := fun e => h (by rw [e]; decide)
    have e17 : ¬(c = 'R') := fun e => h (by rw [e]; decide)
    have e18 : ¬(c = 'S') := fun e => h (by rw [e]; decide)
    have e19 : ¬(c = 'T') := fun e => h (by rw [e]; decide)
    have e20 : ¬(c = 'U') := fun e => h (by rw [e]; decide)
    have e21 : ¬(c = 'V') := fun e => h (by rw [e]; decide)
    have e22 : ¬(c = 'W') := fun e => h (by rw [e]; decide)
    have e23 : ¬(c = 'X') := fun e => h (by rw [e]; decide)
    have e24 : ¬(c = 'Y') := fun e => h (by rw [e]; decide)
    have e25 : ¬(c = 'Z') := fun e => h (by rw [e]; decide)
    unfold lowerChar
    rw [if_neg e0, if_neg e1, if_neg e2, if_neg e3, if_neg e4, if_neg e5, if_neg e6, if_neg e7, if_neg e8, if_neg e9, if_neg e10, if_neg e11, if_neg e12, if_neg e13, if_neg e14, if_neg e15, if_neg e16, if_neg e17, if_neg e18, if_neg e19, if_neg e20, if_neg e21, if_neg e22, if_neg e23, if_neg e24, if_neg e25]

theorem lowerChar_mem_lc_of_uc : ∀ c ∈ ucLetters, lowerChar c ∈ lcLetters := by decide

theorem lowerChar_cases (c : Char) :
    lowerChar c = c ∨ (c ∈ ucLetters ∧ lowerChar c ∈ lcLetters) := by
  rcases mem_uc_or_fix c with h | h
  · right; exact ⟨h, lowerChar_mem_lc_of_uc c h⟩
  · left; exact h

theorem lowerChar_fix_of_lc : ∀ c ∈ lcLetters, lowerChar c = c := by decide

theorem schemeCharOk_of_uc : ∀ c ∈ ucLetters, schemeCharOk c = true := by decide

theorem schemeCharOk_of_lc : ∀ c ∈ lcLetters, schemeCharOk c = true := by decide

theorem hostCharOk_of_uc : ∀ c ∈ ucLetters, hostCharOk c = true := by decide

theorem hostCharOk_of_lc : ∀ c ∈ lcLetters, hostCharOk c = true := by decide

theorem lowerChar_idem (c : Char) : lowerChar (lowerChar c) = lowerChar c := by
  rcases lowerChar_cases c with h | ⟨_, h⟩
  · rw [h]; exact h
  · exact lowerChar_fix_of_lc _ h

theorem schemeCharOk_lowerChar (c : Char) :
    schemeCharOk (lowerChar c) = schemeCharOk c := by
  rcases lowerChar_cases c with h | ⟨h1, h2⟩
  · rw [h]
  · rw [schemeCharOk_of_lc _ h2, schemeCharOk_of_uc _ h1]

theorem hostCharOk_lowerChar (c : Char) :
    hostCharOk (lowerChar c) = hostCharOk c := by
  rcases lowerChar_cases c with h | ⟨h1, h2⟩
  · rw [h]
  · rw [hostCharOk_of_lc _ h2, hostCharOk_of_uc _ h1]

theorem lowerChar_colon (c : Char) (h : lowerChar c = ':') : c = ':' := by
  rcases lowerChar_cases c with h0 | ⟨_, h2⟩
  · rw [← h0]; exact h
  · rw [h] at h2; exact absurd h2 (by decide)

theorem lowerChar_slash (c : Char) (h : lowerChar c = '/') : c = '/' := by
  rcases lowerChar_cases c with h0 | ⟨_, h2⟩
  · rw [← h0]; exact h
  · rw [h] at h2; exact absurd h2 (by decide)

theorem lowerList_idem (l : List Char) : lowerList (lowerList l) = lowerList l := by
  unfold lowerList
  rw [List.map_map]
  exact List.map_congr_left (fun a _ => lowerChar_idem a)

theorem dropWhile_all_false {p : Char → Bool} :
    ∀ (l : List Char), (∀ c ∈ l, p c = false) → l.dropWhile p = l
  | [], _ => rfl
  | c :: cs, h => by
    rw [List.dropWhile_cons, h c (List.mem_cons_self c cs)]
    simp

theorem trimChars_of_no_ws (l : List Char) (h : ∀ c ∈ l, c.isWhitespace = false) :
    trimChars l = l := by
  unfold trimChars
  rw [dropWhile_all_false l h,
    dropWhile_all_false l.reverse (fun c hc => h c (List.mem_reverse.mp hc)),
    List.reverse_reverse]

theorem splitAtMarker_append (a b : List Char) (ha : ':' ∉ a) :
    splitAtMarker schemeSep (a ++ schemeSep ++ b) = some (a, b) := by
  induction a with
  | nil =>
    show splitAtMarker schemeSep (':' :: '/' :: '/' :: b) = some ([], b)
    unfold splitAtMarker
    simp [schemeSep, List.isPrefixOf]
  | cons c a ih =>
    have hc : ¬(c = ':') := by intro h; exact ha (by simp [h])
    have ha2 : ':' ∉ a := fun hmem => ha (List.mem_cons_of_mem c hmem)
    have hpre : schemeSep.isPrefixOf (c :: (a ++ schemeSep ++ b)) = false := by
      have hb : (':' == c) = false := beq_eq_false_iff_ne.mpr (Ne.symm hc)
      simp only [schemeSep, List.isPrefixOf, hb, Bool.false_and]
    show splitAtMarker schemeSep (c :: (a ++ schemeSep ++ b)) = some (c :: a, b)
    unfold splitAtMarker
    rw [if_neg (by rw [hpre]; exact Bool.false_ne_true), ih ha2]

theorem splitHostPath_append (h p : List Char) (hh : ∀ c ∈ h, ¬(c = '/'))
    (hp : p = [] ∨ p.head? = some '/') :
    splitHostPath (h ++ p) = (h, p) := by
  induction h with
  | nil =>
    rcases hp with h0 | h0
    · subst h0; rfl
    · cases p with
      | nil => simp at h0
      | cons c cs =>
        have hc : c = '/' := by simpa using h0
        subst hc
        rfl
  | cons c h ih =>
    show splitHostPath (c :: (h ++ p)) = (c :: h, p)
    unfold splitHostPath
    rw [if_neg (hh c (List.mem_cons_self c h)),
      ih (fun x hx => hh x (List.mem_cons_of_mem c hx))]

theorem splitHostPath_snd (l : List Char) :
    (splitHostPath l).2 = [] ∨ (splitHostPath l).2.head? = some '/' := by
  induction l with
  | nil => left; rfl
  | cons c cs ih =>
    unfold splitHostPath
    by_cases hc : c = '/'
    · rw [if_pos hc]; right; rw [hc]; rfl
    · rw [if_neg hc]; simpa using ih

theorem schemeCharOk_props (c : Char) (h : schemeCharOk c = true) :
    c.isWhitespace = false ∧ ¬(c = ':') := by
  unfold schemeCharOk at h
  simp only [Bool.and_eq_true, Bool.not_eq_true', decide_eq_false_iff_not] at h
  exact ⟨h.1.1.2, h.1.2⟩

theorem hostCharOk_props (c : Char) (h : hostCharOk c = true) :
    c.isWhitespace = false ∧ ¬(c = '/') := by
  unfold hostCharOk at h
  simp only [Bool.and_eq_true, Bool.not_eq_true', decide_eq_false_iff_not] at h
  exact ⟨h.2, h.1.1.1.1.1⟩

theorem pathCharOk_props (c : Char) (h : pathCharOk c = true) :
    c.isWhitespace = false := by
  unfold pathCharOk at h
  simp only [Bool.and_eq_true, Bool.not_eq_true', decide_eq_false_iff_not] at h
  exact h.2

theorem lowerList_append (a b : List Char) :
    lowerList (a ++ b) = lowerList a ++ lowerList b := by
  unfold lowerList
  exact List.map_append _ _ _

theorem scheme_decompose (w d e : List Char) (hw : ':' ∉ w)
    (h : lowerList d = w ++ schemeSep ++ e) :
    ∃ sch rest, d = sch ++ schemeSep ++ rest ∧ lowerList sch = w ∧ ':' ∉ sch := by
  unfold lowerList at h
  obtain ⟨l1, l2, hd, h1, h2⟩ := List.map_eq_append_iff.mp h
  obtain ⟨sch, m, hl1, hsch, hm⟩ := List.map_eq_append_iff.mp h1
  have hm0 : List.map lowerChar m = ':' :: '/' :: '/' :: [] := hm
  obtain ⟨m0, t0, hmm0, hc0, hr0⟩ := List.map_eq_cons_iff.mp hm0
  obtain ⟨m1, t1, hmm1, hc1, hr1⟩ := List.map_eq_cons_iff.mp hr0
  obtain ⟨m2, t2, hmm2, hc2, hr2⟩ := List.map_eq_cons_iff.mp hr1
  have ht2 : t2 = [] := List.map_eq_nil_iff.mp hr2
  have e0 := lowerChar_colon m0 hc0
  have e1 := lowerChar_slash m1 hc1
  have e2 := lowerChar_slash m2 hc2
  refine ⟨sch, l2, ?_, ?_, ?_⟩
  · rw [hd, hl1, hmm0, hmm1, hmm2, ht2, e0, e1, e2]
    simp [schemeSep]
  · exact hsch
  · intro hin
    have hmem : lowerChar ':' ∈ List.map lowerChar sch := List.mem_map_of_mem lowerChar hin
    rw [hsch] at hmem
    have hcl : lowerChar ':' = ':' := by decide
    rw [hcl] at hmem
    exact hw hmem

theorem parseUrl_scheme (w : String) (u : UrlParts) (sch rest : List Char)
    (hsp : splitAtMarker schemeSep w.data = some (sch, rest))
    (hu : parseUrl w = some u) : u.scheme = String.mk (lowerList sch) := by
  unfold parseUrl at hu
  rw [hsp] at hu
  simp only [Option.some_bind] at hu
  unfold parseUrlAux at hu
  split at hu
  · injection hu with hu
    subst hu
    rfl
  · exact absurd hu (by simp)

theorem goodParts_of_parse (w : String) (u : UrlParts) (hu : parseUrl w = some u) :
    goodParts u := by
  unfold parseUrl at hu
  cases hsp : splitAtMarker schemeSep w.data with
  | none => rw [hsp] at hu; exact absurd hu (by simp)
  | some pr =>
    rw [hsp] at hu
    simp only [Option.some_bind] at hu
    unfold parseUrlAux at hu
    split at hu
    next hg =>
      injection hu with hu
      simp only [Bool.and_eq_true, Bool.not_eq_true'] at hg
      obtain ⟨⟨⟨⟨hg1, hg2⟩, hg3⟩, hg4⟩, hg5⟩ := hg
      rw [← hu]
      unfold goodParts
      refine ⟨?_, ?_, ?_, ?_, ?_, ?_, ?_, ?_⟩
      · intro c hc
        obtain ⟨c2, hc2, heq⟩ := List.mem_map.mp hc
        rw [← heq, schemeCharOk_lowerChar]
        exact List.all_eq_true.mp hg1 c2 hc2
      · intro hnil
        exact List.isEmpty_eq_false.mp hg2 (List.map_eq_nil_iff.mp hnil)
      · intro c hc
        obtain ⟨c2, hc2, heq⟩ := List.mem_map.mp hc
        rw [← heq, hostCharOk_lowerChar]
        exact List.all_eq_true.mp hg3 c2 hc2
      · intro hnil
        exact List.isEmpty_eq_false.mp hg4 (List.map_eq_nil_iff.mp hnil)
      · show ∀ c ∈ (if (splitHostPath pr.2).2.isEmpty then ['/'] else (splitHostPath pr.2).2),
          pathCharOk c = true
        split_ifs with hemp
        · intro c hc
          have hc2 : c = '/' := by simpa using hc
          rw [hc2]; decide
        · exact List.all_eq_true.mp hg5
      · show List.head? (if (splitHostPath pr.2).2.isEmpty then ['/'] else (splitHostPath pr.2).2) =
          some '/'
        split_ifs with hemp
        · rfl
        · rcases splitHostPath_snd pr.2 with h0 | h0
          · exact absurd (List.isEmpty_iff.mpr h0) hemp
          · exact h0
      · exact lowerList_idem _
      · exact lowerList_idem _
    next hg => exact absurd hu (by simp)

theorem reparse (u : UrlParts) (hg : goodParts u)
    (hs : u.scheme = "http" ∨ u.scheme = "https") :
    formatUrl u.href = some u.href := by
  obtain ⟨hsch, hschne, hhost, hhostne, hpath, hphead, hlsch, hlhost⟩ := hg
  have hsep : "://".data = schemeSep := rfl
  have hdata : u.href.data = u.scheme.data ++ schemeSep ++ (u.host.data ++ u.pathname.data) := by
    show (u.scheme ++ "://" ++ u.host ++ u.pathname).data = _
    rw [String.data_append, String.data_append, String.data_append, hsep]
    simp [List.append_assoc]
  have hws : ∀ c ∈ u.href.data, c.isWhitespace = false := by
    rw [hdata]
    intro c hc
    rcases List.mem_append.mp hc with hc | hc
    · rcases List.mem_append.mp hc with hc | hc
      · exact (schemeCharOk_props c (hsch c hc)).1
      · have hc2 : c = ':' ∨ c = '/' ∨ c = '/' := by simpa [schemeSep] using hc
        rcases hc2 with rfl | rfl | rfl <;> decide
    · rcases List.mem_append.mp hc with hc | hc
      · exact (hostCharOk_props c (hhost c hc)).1
      · exact pathCharOk_props c (hpath c hc)
  have htrim : jsTrim u.href = u.href := by
    unfold jsTrim
    rw [trimChars_of_no_ws _ hws]
  have hlsep : lowerList schemeSep = schemeSep := by decide
  have hlower : lowerList u.href.data =
      u.scheme.data ++ schemeSep ++ lowerList (u.host.data ++ u.pathname.data) := by
    rw [hdata, lowerList_append, lowerList_append, hlsch, hlsep]
  have hstart : startsWithHttpScheme u.href = true := by
    unfold startsWithHttpScheme
    rw [hlower]
    rcases hs with h | h <;> rw [h]
    · exact Bool.or_eq_true_iff.mpr (Or.inl (List.isPrefixOf_iff_prefix.mpr ⟨_, rfl⟩))
    · exact Bool.or_eq_true_iff.mpr (Or.inr (List.isPrefixOf_iff_prefix.mpr ⟨_, rfl⟩))
  have hcolon : ':' ∉ u.scheme.data := fun hin => (schemeCharOk_props ':' (hsch ':' hin)).2 rfl
  have hsplit : splitAtMarker schemeSep u.href.data =
      some (u.scheme.data, u.host.data ++ u.pathname.data) := by
    rw [hdata]; exact splitAtMarker_append _ _ hcolon
  have hshp : splitHostPath (u.host.data ++ u.pathname.data) =
      (u.host.data, u.pathname.data) :=
    splitHostPath_append _ _ (fun c hc => (hostCharOk_props c (hhost c hc)).2) (Or.inr hphead)
  have hpne : u.pathname.data ≠ [] := by
    intro h0; rw [h0] at hphead; exact Option.noConfusion hphead
  unfold formatUrl withScheme
  rw [htrim, if_pos hstart]
  unfold parseUrl
  rw [hsplit]
  simp only [Option.some_bind]
  unfold parseUrlAux
  simp only [hshp]
  have hguard : (u.scheme.data.all schemeCharOk && !u.scheme.data.isEmpty &&
      u.host.data.all hostCharOk && !u.host.data.isEmpty &&
      u.pathname.data.all pathCharOk) = true := by
    simp only [Bool.and_eq_true, Bool.not_eq_true']
    exact ⟨⟨⟨⟨List.all_eq_true.mpr hsch, List.isEmpty_eq_false.mpr hschne⟩,
      List.all_eq_true.mpr hhost⟩, List.isEmpty_eq_false.mpr hhostne⟩,
      List.all_eq_true.mpr hpath⟩
  rw [if_pos hguard]
  rw [if_neg (by rw [List.isEmpty_iff]; exact hpne)]
  rw [hlsch, hlhost]
  rfl

theorem scheme_of_withScheme_parse (s : String) (u : UrlParts)
    (hu : parseUrl (withScheme s) = some u) :
    u.scheme = "http" ∨ u.scheme = "https" := by
  unfold withScheme at hu
  split_ifs at hu with hb
  · unfold startsWithHttpScheme at hb
    rcases Bool.or_eq_true_iff.mp hb with hpre | hpre
    · left
      obtain ⟨e, he⟩ := List.isPrefixOf_iff_prefix.mp hpre
      obtain ⟨sch, rest, hd, hsch, hcol⟩ :=
        scheme_decompose "http".data (jsTrim s).data e (by decide) (by rw [← he]; rfl)
      have hsp : splitAtMarker schemeSep (jsTrim s).data = some (sch, rest) := by
        rw [hd]; exact splitAtMarker_append sch rest hcol
      rw [parseUrl_scheme (jsTrim s) u sch rest hsp hu, hsch]
    · right
      obtain ⟨e, he⟩ := List.isPrefixOf_iff_prefix.mp hpre
      obtain ⟨sch, rest, hd, hsch, hcol⟩ :=
        scheme_decompose "https".data (jsTrim s).data e (by decide) (by rw [← he]; rfl)
      have hsp : splitAtMarker schemeSep (jsTrim s).data = some (sch, rest) := by
        rw [hd]; exact splitAtMarker_append sch rest hcol
      rw [parseUrl_scheme (jsTrim s) u sch rest hsp hu, hsch]
  · right
    have hd : ("https://" ++ jsTrim s).data =
        "https".data ++ schemeSep ++ (jsTrim s).data := by
      rw [String.data_append,
        show "https://".data = "https".data ++ schemeSep from by decide]
    have hsp : splitAtMarker schemeSep ("https://" ++ jsTrim s).data =
        some ("https".data, (jsTrim s).data) := by
      rw [hd]; exact splitAtMarker_append _ _ (by decide)
    rw [parseUrl_scheme _ u _ _ hsp hu]
    decide

/-- C7: for every input string, `formatUrl` trims the input and prepends the
https scheme exactly when no http or https scheme prefix is present under
case-insensitive comparison, before handing the string to the URL
collaborator; on the two documented inputs, a bare host gains the https
scheme and the root path, while an upper-case http scheme is preserved and
lower-cased. -/
theorem formatUrl_spec :
    (∀ s : String, formatUrl s =
      Option.map UrlParts.href (parseUrl
        (if startsWithHttpScheme (jsTrim s) = true then jsTrim s
         else "https://" ++ jsTrim s))) ∧
    formatUrl "example.com" = some "https://example.com/" ∧
    formatUrl "  HTTP://Example.com  " = some "http://example.com/" := by
  refine ⟨fun s => rfl, by decide, by decide⟩

/-- C8: the URL normalizer is idempotent - whenever it succeeds, running it
again on its own output returns that output unchanged - and for an
already-trimmed input that carries its scheme and parses, the normalized
result embeds the parsed path verbatim (the path is not altered). -/
theorem formatUrl_idem :
    (∀ s t : String, formatUrl s = some t → formatUrl t = some t) ∧
    (∀ (s : String) (u : UrlParts), jsTrim s = s → startsWithHttpScheme s = true →
      parseUrl s = some u →
      formatUrl s = some (u.scheme ++ "://" ++ u.host ++ u.pathname)) := by
  constructor
  · intro s t h
    unfold formatUrl at h
    obtain ⟨u, hu, ht⟩ := Option.map_eq_some'.mp h
    have hg := goodParts_of_parse (withScheme s) u hu
    have hs := scheme_of_withScheme_parse s u hu
    rw [← ht]
    exact reparse u hg hs
  · intro s u h1 h2 h3
    unfold formatUrl withScheme
    rw [h1, if_pos h2, h3]
    rfl

theorem formatUrl_idem_witness :
    formatUrl "https://example.com/docs" = some "https://example.com/docs" ∧
    formatUrl "https://example.com/docs" =
      some ("https" ++ "://" ++ "example.com" ++ "/docs") :=
  ⟨formatUrl_idem.1 "https://example.com/docs" "https://example.com/docs" (by decide),
   formatUrl_idem.2 "https://example.com/docs" (UrlParts.mk "https" "example.com" "/docs")
     (by decide) (by decide) (by decide)⟩
